import Mathlib

/-
Verification of the Creator-s-Compass repository: a two-file Python program
(src/data_models.py, src/main_opus_handler.py) that builds a multimodal
analysis request for one or two videos, calls an external inference service,
and decodes the textual response as JSON.

The embedding below translates the source into Lean.  External library
behaviour (the genai client, the json module) is modelled by an explicit
environment of oracle functions; everything written in the repository itself
(prompt text, branching, the try/except boundary, the schema declarations of
data_models.py) is translated directly.
-/

namespace Opus

/-! ## JSON values

Models the values produced by the external json module when decoding a
response text.  An object models an already-decoded Python dict, so its keys
are unique by construction.  Numbers are modelled as integers: every numeric
field of the declared schema is an int. -/

inductive Json where
  | null
  | bool (b : Bool)
  | num (n : Int)
  | str (s : String)
  | arr (elems : List Json)
  | obj (fields : List (String × Json))

/-! ## Result Schema (src/data_models.py)

FeedbackComponent and VideoAnalysisResult mirror the two pydantic models.
The field constraint of data_models.py line 13 (`ge=1, le=10`) is enforced
by `validate` below, which models pydantic validation of a decoded JSON
document against these declarations: required fields, JSON-native types
with no further coercion, and the declared range bounds. -/

structure FeedbackComponent where
  area : String
  problem : String
  solution : String
deriving DecidableEq

structure VideoAnalysisResult where
  overall_score : Int
  review_check : Bool
  summary_insight : String
  detailed_feedback : List FeedbackComponent
deriving DecidableEq

/-- Dict lookup on the fields of a decoded JSON object. -/
def getField (fields : List (String × Json)) (key : String) : Option Json :=
  match fields with
  | [] => none
  | (k, v) :: rest => if k == key then some v else getField rest key

def asInt : Json → Except String Int
  | Json.num n => Except.ok n
  | _ => Except.error "Input should be a valid integer"

def asBool : Json → Except String Bool
  | Json.bool b => Except.ok b
  | _ => Except.error "Input should be a valid boolean"

def asStr : Json → Except String String
  | Json.str s => Except.ok s
  | _ => Except.error "Input should be a valid string"

/-- Range bounds declared on overall_score: `Field(..., ge=1, le=10)`. -/
def checkScoreRange (n : Int) : Except String Int :=
  if n < 1 then Except.error "overall_score: Input should be greater than or equal to 1"
  else if 10 < n then Except.error "overall_score: Input should be less than or equal to 10"
  else Except.ok n

def requireField (fields : List (String × Json)) (key : String) : Except String Json :=
  match getField fields key with
  | some v => Except.ok v
  | none => Except.error (key ++ ": Field required")

/-- Validation of one detailed_feedback element against FeedbackComponent. -/
def validateFeedback (j : Json) : Except String FeedbackComponent :=
  match j with
  | Json.obj fields =>
    match requireField fields "area" with
    | Except.error e => Except.error e
    | Except.ok aj =>
      match asStr aj with
      | Except.error e => Except.error e
      | Except.ok area =>
        match requireField fields "problem" with
        | Except.error e => Except.error e
        | Except.ok pj =>
          match asStr pj with
          | Except.error e => Except.error e
          | Except.ok problem =>
            match requireField fields "solution" with
            | Except.error e => Except.error e
            | Except.ok sj =>
              match asStr sj with
              | Except.error e => Except.error e
              | Except.ok solution => Except.ok ⟨area, problem, solution⟩
  | _ => Except.error "Input should be a valid dictionary"

def validateFeedbackList : List Json → Except String (List FeedbackComponent)
  | [] => Except.ok []
  | j :: rest =>
    match validateFeedback j with
    | Except.error e => Except.error e
    | Except.ok f =>
      match validateFeedbackList rest with
      | Except.error e => Except.error e
      | Except.ok fs => Except.ok (f :: fs)

/-- Validation of a decoded JSON document against VideoAnalysisResult
(the `validate` operation of the Result Schema). -/
def validate (j : Json) : Except String VideoAnalysisResult :=
  match j with
  | Json.obj fields =>
    match requireField fields "overall_score" with
    | Except.error e => Except.error e
    | Except.ok sj =>
      match asInt sj with
      | Except.error e => Except.error e
      | Except.ok rawScore =>
        match checkScoreRange rawScore with
        | Except.error e => Except.error e
        | Except.ok score =>
          match requireField fields "review_check" with
          | Except.error e => Except.error e
          | Except.ok rj =>
            match asBool rj with
            | Except.error e => Except.error e
            | Except.ok review =>
              match requireField fields "summary_insight" with
              | Except.error e => Except.error e
              | Except.ok ij =>
                match asStr ij with
                | Except.error e => Except.error e
                | Except.ok insight =>
                  match requireField fields "detailed_feedback" with
                  | Except.error e => Except.error e
                  | Except.ok dj =>
                    match dj with
                    | Json.arr elems =>
                      match validateFeedbackList elems with
                      | Except.error e => Except.error e
                      | Except.ok fb => Except.ok ⟨score, review, insight, fb⟩
                    | _ => Except.error "detailed_feedback: Input should be a valid list"
  | _ => Except.error "Input should be an object"

/-- Exact-schema JSON encoding of a FeedbackComponent. -/
def feedbackToJson (f : FeedbackComponent) : Json :=
  Json.obj [("area", Json.str f.area), ("problem", Json.str f.problem),
            ("solution", Json.str f.solution)]

/-- Exact-schema JSON encoding of a VideoAnalysisResult. -/
def resultToJson (r : VideoAnalysisResult) : Json :=
  Json.obj [("overall_score", Json.num r.overall_score),
            ("review_check", Json.bool r.review_check),
            ("summary_insight", Json.str r.summary_insight),
            ("detailed_feedback", Json.arr (r.detailed_feedback.map feedbackToJson))]

/-! ## Analysis invoker (src/main_opus_handler.py) -/

/-- MODEL_NAME from src/main_opus_handler.py line 10. -/
def MODEL_NAME : String := "gemini-2.5-flash"

/-- Leading literal text of the base prompt, lines 16-21 of the source
(adjacent Python string literals concatenate at parse time, up to and
including the f-string text before the goal). -/
def promptPre : String :=
  "You are an expert video producer and content quality analyst. Your task is to analyze the " ++
  "provided video URL/file for technical quality issues. " ++
  "Focus on: 1) Camera Angle/Framing, 2) Lighting Quality, 3) Audio Clarity/Noise, 4) Video Pacing/Engagement. " ++
  "Generate a structured JSON output that conforms exactly to the VideoAnalysisResult schema. " ++
  "The user\x27s goal is: "

/-- Trailing literal text of the base prompt, after the goal. -/
def promptPost : String := ". Be critical but constructive."

/-- get_base_analysis_prompt from src/main_opus_handler.py lines 13-22:
the fixed template with the goal embedded verbatim. -/
def get_base_analysis_prompt (goal : String) : String :=
  promptPre ++ goal ++ promptPost

/-- Comparison instruction prefixed to the base prompt in the two-video
branch, lines 58-61 of the source. -/
def compare_instruction : String :=
  "Compare the FIRST video (User\x27s upload) with the SECOND video (Reference/Goal). "

/-- Request content part (models google.genai.types.Part): a video
reference tagged with a MIME type, or a text part. -/
inductive Part where
  | uri (uri : String) (mime_type : String)
  | text (s : String)
deriving DecidableEq

/-- Models types.GenerateContentConfig as used at lines 33-36. -/
structure GenerateContentConfig where
  response_mime_type : String
  response_schema : String
deriving DecidableEq

def config : GenerateContentConfig :=
  { response_mime_type := "application/json", response_schema := "VideoAnalysisResult" }

/-- Environment of external effects: whether Part.from_uri raises on a
given URI (and with what message), what client.models.generate_content
returns (response text or exception message), and what json.loads returns
on a response text (decoded value or exception message). -/
structure Env where
  from_uri_err : String → Option String
  generate_content : String → List Part → GenerateContentConfig → Except String String
  json_loads : String → Except String Json

/-- Models types.Part.from_uri: constructs a part referencing exactly the
given URI and MIME type, or raises (Except.error) per the environment. -/
def part_from_uri (env : Env) (uri mime_type : String) : Except String Part :=
  match env.from_uri_err uri with
  | some e => Except.error e
  | none => Except.ok (Part.uri uri mime_type)

/-- The condition of line 52, `if reference_video_uri and user_goal == "Option 3"`:
Python truthiness of the optional string (None and the empty string are falsy)
conjoined with string equality against the sentinel. -/
def comparison_mode (user_goal : String) (reference_video_uri : Option String) : Bool :=
  match reference_video_uri with
  | none => false
  | some r => r != "" && user_goal == "Option 3"

/-- The prompt text appended as the final content part (lines 52-65):
comparison instruction plus base prompt in comparison mode, base prompt
otherwise. -/
def built_prompt (user_goal : String) (reference_video_uri : Option String) : String :=
  if comparison_mode user_goal reference_video_uri then
    compare_instruction ++ get_base_analysis_prompt user_goal
  else
    get_base_analysis_prompt user_goal

/-- Content-list construction of perform_video_analysis, lines 39-65: the
main video part, then (in comparison mode) the reference video part, then
the text prompt.  An Except.error is an exception escaping this phase,
which runs before the try block. -/
def build_contents (env : Env) (video_uri user_goal : String)
    (reference_video_uri : Option String) : Except String (List Part) :=
  match part_from_uri env video_uri "video/mp4" with
  | Except.error e => Except.error e
  | Except.ok main_video_part =>
    match reference_video_uri with
    | some r =>
      if r != "" && user_goal == "Option 3" then
        match part_from_uri env r "video/mp4" with
        | Except.error e => Except.error e
        | Except.ok ref_video_part =>
          Except.ok [main_video_part, ref_video_part,
            Part.text (compare_instruction ++ get_base_analysis_prompt user_goal)]
      else
        Except.ok [main_video_part, Part.text (get_base_analysis_prompt user_goal)]
    | none =>
      Except.ok [main_video_part, Part.text (get_base_analysis_prompt user_goal)]

/-- The error dictionary returned by the except branch, line 83. -/
def error_payload (e : String) : Json :=
  Json.obj [("error", Json.str e),
            ("message", Json.str "Failed to get analysis from Gemini.")]

/-- perform_video_analysis from src/main_opus_handler.py lines 25-83.
Request construction runs outside the try block, so its exceptions
propagate (Except.error).  The try block covers the service call and
json.loads; any exception there is converted to the error payload, and the
decoded JSON value is returned as-is. -/
def perform_video_analysis (env : Env) (video_uri user_goal : String)
    (reference_video_uri : Option String := none) : Except String Json :=
  match build_contents env video_uri user_goal reference_video_uri with
  | Except.error e => Except.error e
  | Except.ok contents =>
    Except.ok
      (match env.generate_content MODEL_NAME contents config with
       | Except.error e => error_payload e
       | Except.ok responseText =>
         match env.json_loads responseText with
         | Except.error e => error_payload e
         | Except.ok parsed => parsed)

/-! ## Substring machinery

Executable prefix, suffix and infix tests on character lists, used to state
what it means for a prompt to contain a phrase or to embed the goal
verbatim. -/

def prefB : List Char → List Char → Bool
  | [], _ => true
  | _ :: _, [] => false
  | a :: as, b :: bs => a == b && prefB as bs

def suffB (p l : List Char) : Bool := prefB p.reverse l.reverse

def infB : List Char → List Char → Bool
  | p, [] => prefB p []
  | p, b :: t => prefB p (b :: t) || infB p t

theorem prefB_refl (l : List Char) : prefB l l = true := by
  induction l with
  | nil => rfl
  | cons a t ih => simp [prefB, ih]

theorem prefB_append (p X Y : List Char) (h : prefB p X = true) :
    prefB p (X ++ Y) = true := by
  induction p generalizing X with
  | nil => rfl
  | cons a as ih =>
    cases X with
    | nil => simp [prefB] at h
    | cons b bs =>
      simp [prefB] at h ⊢
      exact ⟨h.1, ih bs h.2⟩

theorem suffB_refl (l : List Char) : suffB l l = true := prefB_refl l.reverse

theorem suffB_cons (b : Char) (p t : List Char) (h : suffB p t = true) :
    suffB p (b :: t) = true := by
  unfold suffB at h ⊢
  rw [List.reverse_cons]
  exact prefB_append _ _ _ h

theorem prefB_infB (p l : List Char) (h : prefB p l = true) : infB p l = true := by
  cases l with
  | nil => exact h
  | cons b t => simp [infB, h]

theorem infB_cons (p : List Char) (b : Char) (t : List Char)
    (h : infB p t = true) : infB p (b :: t) = true := by
  simp [infB, h]

theorem infB_append_left (X p Y : List Char) (h : infB p Y = true) :
    infB p (X ++ Y) = true := by
  induction X with
  | nil => exact h
  | cons b bs ih => exact infB_cons _ _ _ ih

theorem infB_sandwich (p X Y : List Char) : infB p (X ++ (p ++ Y)) = true :=
  infB_append_left X p _ (prefB_infB _ _ (prefB_append p p Y (prefB_refl p)))

theorem prefB_append_split (p X Y : List Char) (h : prefB p (X ++ Y) = true) :
    prefB p X = true ∨
      (X.length < p.length ∧ p.take X.length = X ∧
        prefB (p.drop X.length) Y = true) := by
  induction X generalizing p with
  | nil =>
    cases p with
    | nil => exact Or.inl rfl
    | cons a as =>
      right
      exact ⟨by simp, by simp, by simpa using h⟩
  | cons b bs ih =>
    cases p with
    | nil => exact Or.inl rfl
    | cons a as =>
      simp [prefB] at h
      obtain ⟨hab, h2⟩ := h
      subst hab
      rcases ih as h2 with h3 | ⟨hl, ht, hp⟩
      · left
        simp [prefB, h3]
      · right
        refine ⟨by simpa using Nat.succ_lt_succ hl, ?_, ?_⟩
        · simpa using ht
        · simpa using hp

theorem infB_append_split (p X Y : List Char) (h : infB p (X ++ Y) = true) :
    infB p X = true ∨ infB p Y = true ∨
      ∃ i, 0 < i ∧ i < p.length ∧ suffB (p.take i) X = true ∧
        prefB (p.drop i) Y = true := by
  induction X with
  | nil => exact Or.inr (Or.inl h)
  | cons b bs ih =>
    have h2 : prefB p (b :: (bs ++ Y)) = true ∨ infB p (bs ++ Y) = true := by
      simpa [infB, Bool.or_eq_true] using h
    rcases h2 with h2 | h2
    · have h3 := prefB_append_split p (b :: bs) Y h2
      rcases h3 with h3 | ⟨hl, ht, hp⟩
      · exact Or.inl (prefB_infB _ _ h3)
      · refine Or.inr (Or.inr ⟨(b :: bs).length, by simp, hl, ?_, hp⟩)
        rw [ht]
        exact suffB_refl _
    · rcases ih h2 with h3 | h3 | ⟨i, h0, hi, hs, hp⟩
      · exact Or.inl (infB_cons _ _ _ h3)
      · exact Or.inr (Or.inl h3)
      · exact Or.inr (Or.inr ⟨i, h0, hi, suffB_cons _ _ _ hs, hp⟩)

/-- Lower-casing of a character list, for case-insensitive phrase search. -/
def lowerL (l : List Char) : List Char := l.map Char.toLower

def second_video_chars : List Char := "second video".data

/-- Case-insensitive test: does the text contain the phrase "second video"
(the phrase the comparison instruction uses to reference the reference
video)? -/
def mentionsSecondVideo (s : String) : Bool :=
  infB second_video_chars (lowerL s.data)

set_option maxRecDepth 100000 in
/-- The base prompt template never introduces the phrase itself: the built
base prompt mentions a second video only if the goal does. -/
theorem base_prompt_second_video_only_from_goal (g : String)
    (h : mentionsSecondVideo g = false) :
    mentionsSecondVideo (get_base_analysis_prompt g) = false := by
  cases hb : mentionsSecondVideo (get_base_analysis_prompt g) with
  | false => rfl
  | true =>
    exfalso
    unfold mentionsSecondVideo at hb h
    have hd : lowerL (get_base_analysis_prompt g).data
        = lowerL promptPre.data ++ (lowerL g.data ++ lowerL promptPost.data) := by
      simp [get_base_analysis_prompt, lowerL, String.data_append, List.map_append,
        List.append_assoc]
    rw [hd] at hb
    have hlen : second_video_chars.length = 12 := by decide
    rcases infB_append_split _ _ _ hb with h1 | h1 | ⟨i, h0, hi, hs, hp⟩
    · exact absurd h1 (by decide)
    · rcases infB_append_split _ _ _ h1 with h2 | h2 | ⟨i, h0, hi, hs, hp⟩
      · rw [h2] at h
        exact Bool.noConfusion h
      · exact absurd h2 (by decide)
      · rw [hlen] at hi
        interval_cases i <;> exact absurd hp (by decide)
    · rw [hlen] at hi
      interval_cases i <;> exact absurd hs (by decide)

/-! ## Concrete environments and canonical request shapes -/

/-- Environment in which request construction succeeds, the service call
returns the fixed text "resp", and json.loads decodes it to the given value. -/
def envDecodes (j : Json) : Env :=
  { from_uri_err := fun _ => none,
    generate_content := fun _ _ _ => Except.ok "resp",
    json_loads := fun _ => Except.ok j }

/-- Environment in which request construction succeeds and the outbound
call raises with the given message (for example, connection refused). -/
def envCallFails (e : String) : Env :=
  { from_uri_err := fun _ => none,
    generate_content := fun _ _ _ => Except.error e,
    json_loads := fun _ => Except.error e }

/-- Environment in which the call returns text on which json.loads raises. -/
def envBadJson (e : String) : Env :=
  { from_uri_err := fun _ => none,
    generate_content := fun _ _ _ => Except.ok "not json",
    json_loads := fun _ => Except.error e }

/-- Environment in which Part.from_uri raises on one designated URI. -/
def envUriRaises (bad e : String) : Env :=
  { from_uri_err := fun u => if u == bad then some e else none,
    generate_content := fun _ _ _ => Except.ok "resp",
    json_loads := fun _ => Except.ok Json.null }

/-- The canonical content list produced by a successful request
construction: main video part, reference part exactly in comparison mode,
then the text prompt. -/
def contents_shape (video_uri user_goal : String)
    (reference_video_uri : Option String) : List Part :=
  if comparison_mode user_goal reference_video_uri then
    [Part.uri video_uri "video/mp4",
     Part.uri (reference_video_uri.getD "") "video/mp4",
     Part.text (built_prompt user_goal reference_video_uri)]
  else
    [Part.uri video_uri "video/mp4",
     Part.text (built_prompt user_goal reference_video_uri)]

/-- Every successful request construction yields the canonical shape. -/
theorem build_contents_ok_shape (env : Env) (v g : String) (r : Option String)
    (cs : List Part) (h : build_contents env v g r = Except.ok cs) :
    cs = contents_shape v g r := by
  cases r with
  | none =>
    unfold build_contents part_from_uri at h
    cases hv : env.from_uri_err v with
    | some e =>
      simp only [hv] at h
      exact Except.noConfusion h
    | none =>
      simp only [hv] at h
      cases h
      rfl
  | some rr =>
    unfold build_contents part_from_uri at h
    cases hv : env.from_uri_err v with
    | some e =>
      simp only [hv] at h
      exact Except.noConfusion h
    | none =>
      simp only [hv] at h
      split at h
      next hcond =>
        cases hr : env.from_uri_err rr with
        | some e =>
          simp only [hr] at h
          exact Except.noConfusion h
        | none =>
          simp only [hr] at h
          cases h
          simp [contents_shape, comparison_mode, built_prompt, hcond]
      next hcond =>
        rw [Bool.not_eq_true] at hcond
        cases h
        simp [contents_shape, comparison_mode, built_prompt, hcond]

/-- The goal text is embedded verbatim in the built prompt, in both single
and comparison mode. -/
theorem goal_verbatim (g : String) (r : Option String) :
    infB g.data (built_prompt g r).data = true := by
  unfold built_prompt get_base_analysis_prompt
  split
  · have hd : (compare_instruction ++ (promptPre ++ g ++ promptPost)).data
        = compare_instruction.data ++ (promptPre.data ++ (g.data ++ promptPost.data)) := by
      simp [String.data_append, List.append_assoc]
    rw [hd]
    exact infB_append_left _ _ _ (infB_sandwich _ _ _)
  · have hd : (promptPre ++ g ++ promptPost).data
        = promptPre.data ++ (g.data ++ promptPost.data) := by
      simp [String.data_append, List.append_assoc]
    rw [hd]
    exact infB_sandwich _ _ _

/-- Inversion for the range check. -/
theorem checkScoreRange_ok (n m : Int) (h : checkScoreRange n = Except.ok m) :
    m = n ∧ 1 ≤ n ∧ n ≤ 10 := by
  unfold checkScoreRange at h
  by_cases h1 : n < 1
  · simp [h1] at h
  · by_cases h2 : 10 < n
    · simp [h1, h2] at h
    · simp [h1, h2] at h
      exact ⟨h.symm, by omega, by omega⟩

/-- The range check succeeds on every in-range score. -/
theorem checkScoreRange_in_range (n : Int) (h1 : 1 ≤ n) (h2 : n ≤ 10) :
    checkScoreRange n = Except.ok n := by
  unfold checkScoreRange
  rw [if_neg (by omega), if_neg (by omega)]

/-- Encoded feedback lists validate back to themselves. -/
theorem fb_list_roundtrip (l : List FeedbackComponent) :
    validateFeedbackList (l.map feedbackToJson) = Except.ok l := by
  induction l with
  | nil => rfl
  | cons f fs ih =>
    have he : validateFeedback (feedbackToJson f) = Except.ok f := rfl
    simp [validateFeedbackList, he, ih]

/-! ## Claim C1 -/

/-- A service response document that is valid JSON but violates the schema:
overall_score is 11, outside the declared range. -/
def nonconforming_fields : List (String × Json) :=
  [("overall_score", Json.num 11), ("review_check", Json.bool false),
   ("summary_insight", Json.str "x"), ("detailed_feedback", Json.arr [])]

def nonconforming_doc : Json := Json.obj nonconforming_fields

/-- C1 counterexample: on a service response whose text is valid JSON but
whose overall_score is 11 (a Result Schema violation), perform_video_analysis
returns the parsed non-conforming document itself to the caller; the result
carries neither an error field nor a message field, so it is not the uniform
error payload the claim requires. -/
theorem c1_counterexample :
    perform_video_analysis (envDecodes nonconforming_doc) "http://v" "improve reach" none
        = Except.ok nonconforming_doc ∧
    validate nonconforming_doc
        = Except.error "overall_score: Input should be less than or equal to 10" ∧
    getField nonconforming_fields "error" = none ∧
    getField nonconforming_fields "message" = none :=
  ⟨rfl, rfl, rfl, rfl⟩

/-- C1 amended: perform_video_analysis applies no schema validation to the
decoded response.  Whenever the outbound call succeeds and json.loads
decodes the response text, the decoded value is returned as-is to the
caller, whether or not it conforms to the Result Schema; the uniform error
payload arises only from a failing call or a json.loads failure. -/
theorem c1_no_schema_validation (env : Env) (v g : String) (r : Option String)
    (cs : List Part) (t : String) (j : Json)
    (hcs : build_contents env v g r = Except.ok cs)
    (hgen : env.generate_content MODEL_NAME cs config = Except.ok t)
    (hparse : env.json_loads t = Except.ok j) :
    perform_video_analysis env v g r = Except.ok j := by
  unfold perform_video_analysis
  simp only [hcs, hgen, hparse]

/-- C1 witness: the amended theorem applied at the non-conforming document. -/
theorem c1_no_schema_validation_witness :
    perform_video_analysis (envDecodes nonconforming_doc) "http://v" "grow channel" none
        = Except.ok nonconforming_doc :=
  c1_no_schema_validation (envDecodes nonconforming_doc) "http://v" "grow channel" none
    [Part.uri "http://v" "video/mp4", Part.text (get_base_analysis_prompt "grow channel")]
    "resp" nonconforming_doc rfl rfl rfl

/-! ## Claim C2 -/

/-- C2: once the request is built, perform_video_analysis never raises: it
returns a plain value, and when the outbound call raises or the response
text fails json.loads, the returned value is exactly the mapping with the
exception message under error and the fixed string under message. -/
theorem c2_failures_absorbed (env : Env) (v g : String) (r : Option String)
    (cs : List Part) (hcs : build_contents env v g r = Except.ok cs) :
    (∃ j, perform_video_analysis env v g r = Except.ok j) ∧
    (∀ e, env.generate_content MODEL_NAME cs config = Except.error e →
      perform_video_analysis env v g r = Except.ok (error_payload e)) ∧
    (∀ t e, env.generate_content MODEL_NAME cs config = Except.ok t →
      env.json_loads t = Except.error e →
      perform_video_analysis env v g r = Except.ok (error_payload e)) := by
  unfold perform_video_analysis
  simp only [hcs]
  refine ⟨⟨_, rfl⟩, ?_, ?_⟩
  · intro e he
    simp only [he]
  · intro t e ht he
    simp only [ht, he]

/-- C2 witness: a simulated transport failure yields the error payload. -/
theorem c2_failures_absorbed_witness :
    perform_video_analysis (envCallFails "connection refused") "http://v" "Option 2" none
        = Except.ok (error_payload "connection refused") :=
  ((c2_failures_absorbed (envCallFails "connection refused") "http://v" "Option 2" none
      [Part.uri "http://v" "video/mp4", Part.text (get_base_analysis_prompt "Option 2")]
      rfl).2.1) "connection refused" rfl

/-! ## Claim C3 -/

/-- C3: with a reference video present and the sentinel goal, the request
contains the primary video first and the reference second, and the prompt
begins with the instruction to compare the first video with the second. -/
theorem c3_comparison_request (env : Env) (v rr : String)
    (hv : env.from_uri_err v = none) (hr : env.from_uri_err rr = none)
    (hne : rr ≠ "") :
    build_contents env v "Option 3" (some rr) =
      Except.ok [Part.uri v "video/mp4", Part.uri rr "video/mp4",
        Part.text (compare_instruction ++ get_base_analysis_prompt "Option 3")] ∧
    prefB compare_instruction.data
      (compare_instruction ++ get_base_analysis_prompt "Option 3").data = true := by
  constructor
  · unfold build_contents part_from_uri
    simp [hv, hr, hne]
  · rw [String.data_append]
    exact prefB_append _ _ _ (prefB_refl _)

/-- C3 witness. -/
theorem c3_comparison_request_witness :
    build_contents (envDecodes Json.null) "http://a" "Option 3" (some "http://b") =
      Except.ok [Part.uri "http://a" "video/mp4", Part.uri "http://b" "video/mp4",
        Part.text (compare_instruction ++ get_base_analysis_prompt "Option 3")] ∧
    prefB compare_instruction.data
      (compare_instruction ++ get_base_analysis_prompt "Option 3").data = true :=
  c3_comparison_request (envDecodes Json.null) "http://a" "http://b" rfl rfl
    (by decide)

/-! ## Claim C4 -/

/-- C4: with a reference video present but a non-sentinel goal, request
construction coincides with the single-video case on the same inputs: the
reference video is ignored and the prompt is the base prompt. -/
theorem c4_reference_ignored_without_sentinel (env : Env) (v g rr : String)
    (hg : g ≠ "Option 3") :
    build_contents env v g (some rr) = build_contents env v g none := by
  unfold build_contents
  have hc : (g == "Option 3") = false := by
    simp [hg]
  cases part_from_uri env v "video/mp4" with
  | error e => rfl
  | ok mainPart => simp [hc]

/-- C4 witness. -/
theorem c4_reference_ignored_without_sentinel_witness :
    build_contents (envDecodes Json.null) "http://a" "Option 2" (some "http://b")
      = build_contents (envDecodes Json.null) "http://a" "Option 2" none :=
  c4_reference_ignored_without_sentinel (envDecodes Json.null) "http://a" "Option 2"
    "http://b" (by decide)

/-! ## Claim C5 -/

def injected_goal : String := "Make my video outperform the SECOND video"

set_option maxRecDepth 100000 in
/-- C5 counterexample: with the reference video absent, a goal that itself
contains the phrase makes the prompt sent to the service reference a second
video, because the goal is embedded verbatim in the base prompt. -/
theorem c5_counterexample :
    build_contents (envDecodes Json.null) "http://v" injected_goal none =
      Except.ok [Part.uri "http://v" "video/mp4",
        Part.text (get_base_analysis_prompt injected_goal)] ∧
    mentionsSecondVideo (get_base_analysis_prompt injected_goal) = true :=
  ⟨rfl, by decide⟩

/-- C5 amended: with the reference video absent, the prompt sent to the
service is the base prompt and, whenever the goal itself does not contain
the phrase "second video" (case-insensitively), neither does the prompt:
the base template introduces no reference to a second video. -/
theorem c5_no_second_video_mention (env : Env) (v g : String) (cs : List Part)
    (hmention : mentionsSecondVideo g = false)
    (hcs : build_contents env v g none = Except.ok cs) :
    cs = [Part.uri v "video/mp4", Part.text (get_base_analysis_prompt g)] ∧
    mentionsSecondVideo (get_base_analysis_prompt g) = false := by
  have hshape := build_contents_ok_shape env v g none cs hcs
  constructor
  · rw [hshape]
    rfl
  · exact base_prompt_second_video_only_from_goal g hmention

set_option maxRecDepth 100000 in
/-- C5 witness: the amended theorem applied at a phrase-free goal. -/
theorem c5_no_second_video_mention_witness :
    [Part.uri "http://v" "video/mp4", Part.text (get_base_analysis_prompt "Option 2")]
        = [Part.uri "http://v" "video/mp4",
           Part.text (get_base_analysis_prompt "Option 2")] ∧
    mentionsSecondVideo (get_base_analysis_prompt "Option 2") = false :=
  c5_no_second_video_mention (envDecodes Json.null) "http://v" "Option 2"
    [Part.uri "http://v" "video/mp4", Part.text (get_base_analysis_prompt "Option 2")]
    (by decide) rfl

/-! ## Claim C6 -/

/-- A fully schema-conforming document except possibly for the score value. -/
def boundary_doc (n : Int) : Json := resultToJson ⟨n, true, "ok", []⟩

/-- C6: scores of exactly 1 and exactly 10 validate; 0 and 11 are rejected
with a validation error; and every document that validates successfully has
its overall_score within the closed range 1 to 10. -/
theorem c6_score_range :
    validate (boundary_doc 1) = Except.ok ⟨1, true, "ok", []⟩ ∧
    validate (boundary_doc 10) = Except.ok ⟨10, true, "ok", []⟩ ∧
    validate (boundary_doc 0)
      = Except.error "overall_score: Input should be greater than or equal to 1" ∧
    validate (boundary_doc 11)
      = Except.error "overall_score: Input should be less than or equal to 10" ∧
    ∀ (j : Json) (r : VideoAnalysisResult), validate j = Except.ok r →
      1 ≤ r.overall_score ∧ r.overall_score ≤ 10 := by
  refine ⟨rfl, rfl, rfl, rfl, ?_⟩
  intro j r h
  cases j with
  | null => exact Except.noConfusion h
  | bool b => exact Except.noConfusion h
  | num n => exact Except.noConfusion h
  | str s => exact Except.noConfusion h
  | arr elems => exact Except.noConfusion h
  | obj fields =>
    unfold validate at h
    cases hf : requireField fields "overall_score" with
    | error e => simp only [hf] at h; exact Except.noConfusion h
    | ok sj =>
      simp only [hf] at h
      cases hs : asInt sj with
      | error e => simp only [hs] at h; exact Except.noConfusion h
      | ok rawScore =>
        simp only [hs] at h
        cases hcr : checkScoreRange rawScore with
        | error e => simp only [hcr] at h; exact Except.noConfusion h
        | ok score =>
          simp only [hcr] at h
          obtain ⟨heq, hge, hle⟩ := checkScoreRange_ok rawScore score hcr
          cases hrv : requireField fields "review_check" with
          | error e => simp only [hrv] at h; exact Except.noConfusion h
          | ok rj =>
            simp only [hrv] at h
            cases hb : asBool rj with
            | error e => simp only [hb] at h; exact Except.noConfusion h
            | ok review =>
              simp only [hb] at h
              cases hsi : requireField fields "summary_insight" with
              | error e => simp only [hsi] at h; exact Except.noConfusion h
              | ok ij =>
                simp only [hsi] at h
                cases hstr : asStr ij with
                | error e => simp only [hstr] at h; exact Except.noConfusion h
                | ok insight =>
                  simp only [hstr] at h
                  cases hdf : requireField fields "detailed_feedback" with
                  | error e => simp only [hdf] at h; exact Except.noConfusion h
                  | ok dj =>
                    simp only [hdf] at h
                    cases dj with
                    | null => exact Except.noConfusion h
                    | bool b => exact Except.noConfusion h
                    | num n => exact Except.noConfusion h
                    | str s => exact Except.noConfusion h
                    | obj fs => exact Except.noConfusion h
                    | arr elems =>
                      cases hfl : validateFeedbackList elems with
                      | error e => simp only [hfl] at h; exact Except.noConfusion h
                      | ok fb =>
                        simp only [hfl] at h
                        cases h
                        subst heq
                        exact ⟨hge, hle⟩

/-- C6 witness: the range property applied at a concrete validation. -/
theorem c6_score_range_witness :
    1 ≤ (VideoAnalysisResult.mk 5 true "ok" []).overall_score ∧
      (VideoAnalysisResult.mk 5 true "ok" []).overall_score ≤ 10 :=
  c6_score_range.2.2.2.2 (boundary_doc 5) ⟨5, true, "ok", []⟩ rfl

/-! ## Claim C7 -/

/-- C7: every value encoded exactly per the Result Schema validates back to
itself, reproducing every field with no loss; in particular an empty
detailed_feedback sequence round-trips as an empty sequence. -/
theorem c7_roundtrip (r : VideoAnalysisResult)
    (h1 : 1 ≤ r.overall_score) (h2 : r.overall_score ≤ 10) :
    validate (resultToJson r) = Except.ok r := by
  have key : validate (resultToJson r)
      = (match checkScoreRange r.overall_score with
         | Except.error e => Except.error e
         | Except.ok score =>
           match validateFeedbackList (r.detailed_feedback.map feedbackToJson) with
           | Except.error e => Except.error e
           | Except.ok fb =>
             Except.ok ⟨score, r.review_check, r.summary_insight, fb⟩) := rfl
  rw [key, checkScoreRange_in_range r.overall_score h1 h2, fb_list_roundtrip]

/-- C7 witness: round-trip of a concrete result with empty feedback. -/
theorem c7_roundtrip_witness :
    validate (resultToJson ⟨3, true, "Good framing, poor audio.", []⟩)
      = Except.ok ⟨3, true, "Good framing, poor audio.", []⟩ :=
  c7_roundtrip ⟨3, true, "Good framing, poor audio.", []⟩ (by decide) (by decide)

/-! ## Claim C8 -/

/-- C8: prompt construction is deterministic — two invocations with the
same video_uri, user_goal and reference_video_uri that both construct a
request construct identical content (hence identical prompt text), even
under different environments — and the prompt contains the user_goal
verbatim in both single and comparison modes. -/
theorem c8_prompt_deterministic_verbatim (env1 env2 : Env) (v g : String)
    (r : Option String) (cs1 cs2 : List Part)
    (h1 : build_contents env1 v g r = Except.ok cs1)
    (h2 : build_contents env2 v g r = Except.ok cs2) :
    cs1 = cs2 ∧ Part.text (built_prompt g r) ∈ cs1 ∧
      infB g.data (built_prompt g r).data = true := by
  have e1 := build_contents_ok_shape env1 v g r cs1 h1
  have e2 := build_contents_ok_shape env2 v g r cs2 h2
  refine ⟨e1.trans e2.symm, ?_, goal_verbatim g r⟩
  rw [e1]
  unfold contents_shape
  split <;> simp

/-- C8 witness: determinism and verbatim embedding at concrete inputs. -/
theorem c8_prompt_deterministic_verbatim_witness :
    [Part.uri "http://v" "video/mp4", Part.text (get_base_analysis_prompt "Option 2")]
        = [Part.uri "http://v" "video/mp4",
           Part.text (get_base_analysis_prompt "Option 2")] ∧
    Part.text (built_prompt "Option 2" none)
        ∈ [Part.uri "http://v" "video/mp4",
           Part.text (get_base_analysis_prompt "Option 2")] ∧
    infB "Option 2".data (built_prompt "Option 2" none).data = true :=
  c8_prompt_deterministic_verbatim (envDecodes Json.null) (envCallFails "down")
    "http://v" "Option 2" none
    [Part.uri "http://v" "video/mp4", Part.text (get_base_analysis_prompt "Option 2")]
    [Part.uri "http://v" "video/mp4", Part.text (get_base_analysis_prompt "Option 2")]
    rfl rfl

/-! ## Claim C9 -/

/-- C9: the exception absorption does not cover request construction.  An
exception from building the main video part, or the reference video part in
comparison mode, propagates to the caller instead of becoming the error
payload. -/
theorem c9_preparation_exceptions_propagate :
    (∀ (env : Env) (v g : String) (r : Option String) (e : String),
      env.from_uri_err v = some e →
      perform_video_analysis env v g r = Except.error e) ∧
    (∀ (env : Env) (v rr e : String),
      env.from_uri_err v = none → rr ≠ "" → env.from_uri_err rr = some e →
      perform_video_analysis env v "Option 3" (some rr) = Except.error e) := by
  constructor
  · intro env v g r e he
    unfold perform_video_analysis build_contents part_from_uri
    cases r with
    | none => simp only [he]
    | some rr => simp only [he]
  · intro env v rr e hv hne hr
    unfold perform_video_analysis build_contents part_from_uri
    simp [hv, hr, hne]

/-- C9 witness: a raising URI constructor propagates its exception. -/
theorem c9_preparation_exceptions_propagate_witness :
    perform_video_analysis (envUriRaises "bad://v" "invalid uri") "bad://v" "Option 2" none
        = Except.error "invalid uri" :=
  c9_preparation_exceptions_propagate.1 (envUriRaises "bad://v" "invalid uri")
    "bad://v" "Option 2" none "invalid uri" rfl

/-! ## Claim C10 -/

/-- C10: every successfully built content list is some video parts followed
by exactly one trailing text part, with exactly two parts in single-video
mode and exactly three in comparison mode. -/
theorem c10_contents_shape (env : Env) (v g : String) (r : Option String)
    (cs : List Part) (h : build_contents env v g r = Except.ok cs) :
    (∃ vids p, cs = vids ++ [Part.text p] ∧
      ∀ x ∈ vids, ∃ u m, x = Part.uri u m) ∧
    cs.length = if comparison_mode g r then 3 else 2 := by
  have hshape := build_contents_ok_shape env v g r cs h
  rw [hshape]
  unfold contents_shape
  constructor
  · split
    · refine ⟨[Part.uri v "video/mp4",
        Part.uri (r.getD "") "video/mp4"], built_prompt g r, rfl, ?_⟩
      intro x hx
      simp only [List.mem_cons, List.not_mem_nil, or_false] at hx
      rcases hx with rfl | rfl
      · exact ⟨_, _, rfl⟩
      · exact ⟨_, _, rfl⟩
    · refine ⟨[Part.uri v "video/mp4"], built_prompt g r, rfl, ?_⟩
      intro x hx
      simp only [List.mem_cons, List.not_mem_nil, or_false] at hx
      rcases hx with rfl
      exact ⟨_, _, rfl⟩
  · split <;> rfl

/-- C10 witness: shape and length at a concrete comparison-mode request. -/
theorem c10_contents_shape_witness :
    ((∃ vids p,
      [Part.uri "http://a" "video/mp4", Part.uri "http://b" "video/mp4",
        Part.text (compare_instruction ++ get_base_analysis_prompt "Option 3")]
          = vids ++ [Part.text p] ∧
      ∀ x ∈ vids, ∃ u m, x = Part.uri u m) ∧
    List.length
      [Part.uri "http://a" "video/mp4", Part.uri "http://b" "video/mp4",
        Part.text (compare_instruction ++ get_base_analysis_prompt "Option 3")]
        = if comparison_mode "Option 3" (some "http://b") then 3 else 2) :=
  c10_contents_shape (envDecodes Json.null) "http://a" "Option 3" (some "http://b")
    [Part.uri "http://a" "video/mp4", Part.uri "http://b" "video/mp4",
      Part.text (compare_instruction ++ get_base_analysis_prompt "Option 3")]
    rfl

end Opus
